import Mathlib

/-!
Verification development for the schema approval workflow repository.

The repository contains two variants of the approval process:

* a plan-driven variant, whose data model lives in `schema_approval/shared.py`
  and whose activities live in `schema_approval/activities.py`
  (embedded in namespace `Plan`);
* a signal-driven variant, whose orchestration lives in
  `schema_approval/workflow.py` (embedded in namespace `Sig`).

Python dataclasses become Lean structures, Python `int` becomes `Int`,
Python `dict` (insertion-ordered) becomes an association list with
in-place-overwriting insertion, fallible code returns `Except String`,
and the activity side effects of the signal-driven workflow are recorded
in an explicit journal of `ActivityCall`s.
-/

namespace SchemaApproval

/-- Result of a fallible (exception-raising) Python call. -/
def isError {α : Type} : Except String α → Bool
  | .error _ => true
  | .ok _ => false

namespace Plan

/-- The closed stage set `ReviewStageName` of `shared.py`
(`Literal["Review1.a", "Review1.b", "Review2", "Review3"]`). -/
inductive Stage where
  | review1a
  | review1b
  | review2
  | review3
deriving DecidableEq

/-- String form of a stage, as it appears in the Python literals. -/
def Stage.name : Stage → String
  | .review1a => "Review1.a"
  | .review1b => "Review1.b"
  | .review2 => "Review2"
  | .review3 => "Review3"

/-- `shared.ReviewDecisionPlan`: a single reviewer's predetermined decision. -/
structure ReviewDecisionPlan where
  reviewer : String
  approved : Bool
  comments : Option String := none
  skip_follow_up : Bool := false
deriving DecidableEq

/-- `shared.ReviewRoundPlan`: the expected outcomes for one review iteration. -/
structure ReviewRoundPlan where
  schema_id : String
  schema_body : String
  review1_primary : ReviewDecisionPlan
  review1_secondary : ReviewDecisionPlan
  review2 : ReviewDecisionPlan
  requires_review3 : Bool
  review3 : Option ReviewDecisionPlan := none
deriving DecidableEq

/-- `shared.SchemaSubmission` (plan-driven variant): an uploaded submission. -/
structure SchemaSubmission where
  schema_id : String
  body : String
  iteration : Int
deriving DecidableEq

/-- `shared.ReviewRequest`: input for the `perform_review` activity. -/
structure ReviewRequest where
  stage : Stage
  iteration : Int
  decision : ReviewDecisionPlan
deriving DecidableEq

/-- `shared.ReviewOutcome`: the outcome returned by a review activity. -/
structure ReviewOutcome where
  stage : Stage
  reviewer : String
  approved : Bool
  comments : Option String
  skip_additional_review : Bool := false
deriving DecidableEq

/-- `shared.ReviewOutcome.requires_follow_up`:
true when a subsequent review stage must be executed. -/
def ReviewOutcome.requires_follow_up (o : ReviewOutcome) : Bool :=
  !o.skip_additional_review

/-- `shared.CompleteReviewRequest`: input for the completion activity. -/
structure CompleteReviewRequest where
  submission : SchemaSubmission
  iteration : Int
  approvals : List ReviewOutcome
deriving DecidableEq

/-- `shared.CompleteReviewRequest.ensure_all_approved`: raises `ValueError`
naming the disapproving reviewers when some outcome is not approved. -/
def CompleteReviewRequest.ensure_all_approved
    (request : CompleteReviewRequest) : Except String Unit :=
  let disapprovals := request.approvals.filter (fun o => !o.approved)
  if disapprovals.isEmpty then
    .ok ()
  else
    .error ("Cannot complete review when some reviewers rejected the schema: "
      ++ String.intercalate ", " (disapprovals.map (fun o => o.reviewer)))

/-- `shared.CompletionReport`: the final approval summary. -/
structure CompletionReport where
  submission : SchemaSubmission
  iteration : Int
  approved : Bool
  summary : String
deriving DecidableEq

/-- `activities.perform_review`: returns the predetermined review outcome,
raising `ValueError` when `skip_follow_up` is set for a stage other than
`Review2`. -/
def perform_review (request : ReviewRequest) : Except String ReviewOutcome :=
  if request.decision.skip_follow_up = true ∧ request.stage ≠ Stage.review2 then
    .error "skip_follow_up is only supported for the second level review"
  else
    .ok { stage := request.stage
          reviewer := request.decision.reviewer
          approved := request.decision.approved
          comments := request.decision.comments
          skip_additional_review := request.decision.skip_follow_up }

/-- Modelled from the spec: the plan-driven workflow's Round 3 requirement.
The plan-driven workflow module itself is not under `src/`; per the spec it
runs Round 3 exactly when the round's declared requirement holds AND the
Review2 outcome did not waive it (its `requires_follow_up`). -/
def planRequiresRoundThree (plan : ReviewRoundPlan)
    (review2_outcome : ReviewOutcome) : Bool :=
  plan.requires_review3 && review2_outcome.requires_follow_up

/-- `activities.complete_review`: validates via `ensure_all_approved`, then
builds the `CompletionReport` with `approved=True` and a summary line. -/
def complete_review (request : CompleteReviewRequest) : Except String CompletionReport :=
  match request.ensure_all_approved with
  | .error e => .error e
  | .ok _ =>
    let summary := "Schema " ++ request.submission.schema_id
      ++ " approved in iteration " ++ toString request.iteration
      ++ " by " ++ String.intercalate ", " (request.approvals.map (fun o => o.reviewer))
    .ok { submission := request.submission
          iteration := request.iteration
          approved := true
          summary := summary }

end Plan

namespace Sig

/-- Modelled from the spec: the signal-driven variant's `SchemaSubmission`
(the signal-driven `shared` module is not under `src/`; fields follow the
spec's Submission record and the constructor calls in `starter.py`). -/
structure SchemaSubmission where
  schema_id : String
  version : Int
  description : String
  content_uri : String
  submitted_by : String
deriving DecidableEq

/-- Modelled from the spec: the signal-driven `ReviewDecision`
{stage, reviewer, submission version, approved flag, optional comment,
optional follow-up flag}; `workflow.py` reads `stage`, `reviewer`,
`submission_version`, `approved` and `requires_additional_review`
(the latter through `bool(...)`, so it is optional). -/
structure ReviewDecision where
  stage : String
  reviewer : String
  submission_version : Int
  approved : Bool
  comment : Option String := none
  requires_additional_review : Option Bool := none
deriving DecidableEq

/-- Python `bool(x)` on an optional boolean field: `None` is falsy. -/
def boolOf : Option Bool → Bool
  | none => false
  | some b => b

/-- Modelled from the spec: the signal-driven workflow input, as constructed
in `starter.py` and consumed by `SchemaApprovalWorkflow.run`. -/
structure SchemaApprovalWorkflowInput where
  initial_submission : SchemaSubmission
  stage_one_reviewers : List String
  stage_two_reviewer : String
  stage_three_reviewer : String
deriving DecidableEq

/-- Modelled from the spec: the `ReviewAssignment` payload of the
`dispatch_review_request` activity, as constructed in `workflow.py`. -/
structure ReviewAssignment where
  stage : String
  reviewer : String
  submission : SchemaSubmission
  instructions : String
deriving DecidableEq

/-- Modelled from the spec: the `RevisionRequest` payload of the
`record_revision_request` activity, as constructed in `workflow.py`. -/
structure RevisionRequest where
  submission : SchemaSubmission
  reason : String
  requested_by_stage : String
deriving DecidableEq

/-- Modelled from the spec: the summary returned by the signal-driven
`upload` activity (`upload(submission) → {version, storage location,
uploaded-by}`); `workflow.py` reads `version` and `storage_location`. -/
structure UploadSummary where
  version : Int
  storage_location : String
  uploaded_by : String
deriving DecidableEq

/-- Modelled from the spec: the signal-driven `SchemaApprovalResult`
{schema id, approved version, attempts, stage→reviewer map, completion
timestamp}, as constructed in `SchemaApprovalWorkflow.run`. -/
structure SchemaApprovalResult where
  schema_id : String
  approved_version : Int
  attempts : Int
  approvers : List (String × String)
  completed_at : Int
deriving DecidableEq

/-- One journaled activity execution of the signal-driven workflow. -/
inductive ActivityCall where
  | uploadSchema (submission : SchemaSubmission)
  | dispatchReviewRequest (assignment : ReviewAssignment)
  | recordRevisionRequest (request : RevisionRequest)
  | finalizeReview (result : SchemaApprovalResult)
deriving DecidableEq

/-- An inbound Temporal signal delivered to the running workflow. -/
inductive Signal where
  | submit (submission : SchemaSubmission)
  | decide (decision : ReviewDecision)
deriving DecidableEq

/-- The mutable state of `SchemaApprovalWorkflow` (`__init__`), with the
Python dicts embedded as insertion-ordered association lists. -/
structure WorkflowState where
  current_submission : Option SchemaSubmission := none
  pending_submission : Option SchemaSubmission := none
  decisions : List (String × ReviewDecision) := []
  completed_decisions : List (String × ReviewDecision) := []
  awaiting_resubmission : Bool := false
  attempts : Int := 0
  history : List String := []
  current_round_name : Option String := none
  expected_stages : List String := []
deriving DecidableEq

/-- `workflow._VALID_STAGES`. -/
def VALID_STAGES : List String := ["Review1.a", "Review1.b", "Review2", "Review3"]

/-- Lookup in an insertion-ordered dict. -/
def dictFind {α : Type} (l : List (String × α)) (k : String) : Option α :=
  match l with
  | [] => none
  | (k', v) :: rest => if k' = k then some v else dictFind rest k

/-- Insertion into an insertion-ordered dict: an existing key keeps its
position and gets the new value, a new key is appended (Python dict
assignment semantics). -/
def dictInsert {α : Type} (l : List (String × α)) (k : String) (v : α) :
    List (String × α) :=
  match l with
  | [] => [(k, v)]
  | (k', v') :: rest =>
    if k' = k then (k, v) :: rest else (k', v') :: dictInsert rest k v

/-- Removal from a dict (Python `dict.pop(key)` discarding the value). -/
def dictRemove {α : Type} (l : List (String × α)) (k : String) :
    List (String × α) :=
  match l with
  | [] => []
  | (k', v') :: rest =>
    if k' = k then rest else (k', v') :: dictRemove rest k

/-- `SchemaApprovalWorkflow.submit_schema` signal handler. -/
def submit_schema (st : WorkflowState) (submission : SchemaSubmission) :
    WorkflowState :=
  match st.current_submission with
  | some cur =>
    if submission.version ≤ cur.version then
      { st with history := st.history ++
          ["Ignored outdated submission v" ++ toString submission.version
            ++ "; current is v" ++ toString cur.version] }
    else
      { st with pending_submission := some submission }
  | none =>
    { st with pending_submission := some submission }

/-- `SchemaApprovalWorkflow.record_review_decision` signal handler. -/
def record_review_decision (st : WorkflowState) (decision : ReviewDecision) :
    WorkflowState :=
  match st.current_submission with
  | none => st
  | some cur =>
    if decision.submission_version ≠ cur.version then
      { st with history := st.history ++
          ["Ignored decision for version " ++ toString decision.submission_version
            ++ "; current is v" ++ toString cur.version] }
    else if decision.stage ∉ VALID_STAGES then
      { st with history := st.history ++
          ["Ignored decision for unknown stage " ++ decision.stage] }
    else
      { st with
          decisions := dictInsert st.decisions decision.stage decision
          history := st.history ++
            ["Recorded decision for " ++ decision.stage ++ " on version "
              ++ toString decision.submission_version] }

/-- Deliver one signal to the workflow's signal handlers. -/
def deliverSignal (st : WorkflowState) : Signal → WorkflowState
  | .submit s => submit_schema st s
  | .decide d => record_review_decision st d

/-- Deliver a batch of signals in order. -/
def deliverAll (st : WorkflowState) (signals : List Signal) : WorkflowState :=
  signals.foldl deliverSignal st

/-- The `wait_condition` predicate of `_wait_for_stages`: every expected
stage has a pending decision. -/
def allStagesPresent (st : WorkflowState) (stages : List String) : Bool :=
  stages.all (fun stage => (dictFind st.decisions stage).isSome)

/-- The mutation step of `_wait_for_stages`: each awaited stage's decision is
popped from `decisions` and stored into `completed_decisions` (callers guard
the `none` branch with the wait condition, so it is never taken there). -/
def consumeStages (st : WorkflowState) (stages : List String) : WorkflowState :=
  stages.foldl
    (fun s stage =>
      match dictFind s.decisions stage with
      | some d =>
        { s with
            decisions := dictRemove s.decisions stage
            completed_decisions := dictInsert s.completed_decisions stage d }
      | none => s)
    st

/-- `SchemaApprovalWorkflow._round_one_approved`. -/
def round_one_approved (st : WorkflowState) : Bool :=
  match dictFind st.completed_decisions "Review1.a",
        dictFind st.completed_decisions "Review1.b" with
  | some a, some b => a.approved && b.approved
  | _, _ => false

/-- The signals the environment delivers at each suspension point of one
iteration of `SchemaApprovalWorkflow.run` (decisions while a round waits,
resubmissions while the resubmission gate waits). -/
structure IterationInputs where
  roundOne : List Signal := []
  roundTwo : List Signal := []
  roundThree : List Signal := []
  afterReject : List Signal := []
deriving DecidableEq

/-- `SchemaApprovalWorkflow._upload_current_submission`: journals the upload
activity and appends its summary to history; the summary of the external
upload collaborator is supplied by the environment as `upload`. -/
def uploadCurrentSubmission (upload : SchemaSubmission → UploadSummary)
    (st : WorkflowState) (cur : SchemaSubmission) :
    WorkflowState × List ActivityCall :=
  let summary := upload cur
  ({ st with history := st.history ++
      ["Uploaded schema version " ++ toString summary.version ++ " to "
        ++ summary.storage_location] },
   [ActivityCall.uploadSchema cur])

/-- Result of one round phase: either the workflow is still suspended on the
round's `wait_condition` (the script did not deliver every expected
decision), with the waiting state, or the round advanced with a value. -/
inductive PhaseOut (α : Type) where
  | waiting (st : WorkflowState)
  | advanced (a : α)
deriving DecidableEq

/-- `SchemaApprovalWorkflow._run_round_one`: set the round context, dispatch
both Review1 assignments, deliver the environment's signals while waiting,
and when both expected stages have decisions consume them into
`completed_decisions` (`waiting` means the script never satisfied the wait
condition, i.e. the workflow is still suspended). The signal handlers never
modify `current_submission`, so the version read after the wait equals
`cur.version`. -/
def roundOnePhase (config : SchemaApprovalWorkflowInput) (st0 : WorkflowState)
    (cur : SchemaSubmission) (signals : List Signal) :
    PhaseOut WorkflowState × List ActivityCall :=
  let st1 := { st0 with
      current_round_name := some ("Round1:v" ++ toString cur.version)
      expected_stages := ["Review1.a", "Review1.b"] }
  let assignmentA : ReviewAssignment :=
    { stage := "Review1.a"
      reviewer := (config.stage_one_reviewers.get? 0).getD ""
      submission := cur
      instructions := "Perform the first parallel review (A)" }
  let assignmentB : ReviewAssignment :=
    { stage := "Review1.b"
      reviewer := (config.stage_one_reviewers.get? 1).getD ""
      submission := cur
      instructions := "Perform the first parallel review (B)" }
  let journal := [ActivityCall.dispatchReviewRequest assignmentA,
                  ActivityCall.dispatchReviewRequest assignmentB]
  let stW := deliverAll st1 signals
  if allStagesPresent stW ["Review1.a", "Review1.b"] then
    let stC := consumeStages stW ["Review1.a", "Review1.b"]
    (.advanced { stC with
        history := stC.history ++
          ["Collected round one decisions for version " ++ toString cur.version]
        current_round_name := none
        expected_stages := [] },
     journal)
  else
    (.waiting stW, journal)

/-- `SchemaApprovalWorkflow._run_round_two`: dispatch the single Review2
assignment, wait for its decision, consume it and return it. -/
def roundTwoPhase (config : SchemaApprovalWorkflowInput) (st0 : WorkflowState)
    (cur : SchemaSubmission) (signals : List Signal) :
    PhaseOut (WorkflowState × ReviewDecision) × List ActivityCall :=
  let st1 := { st0 with
      current_round_name := some ("Round2:v" ++ toString cur.version)
      expected_stages := ["Review2"] }
  let assignment : ReviewAssignment :=
    { stage := "Review2"
      reviewer := config.stage_two_reviewer
      submission := cur
      instructions := "Perform the senior schema review" }
  let journal := [ActivityCall.dispatchReviewRequest assignment]
  let stW := deliverAll st1 signals
  match dictFind stW.decisions "Review2" with
  | some decision =>
    let stC := consumeStages stW ["Review2"]
    (.advanced ({ stC with
        history := stC.history ++
          ["Collected round two decision for version " ++ toString cur.version]
        current_round_name := none
        expected_stages := [] }, decision),
     journal)
  | none => (.waiting stW, journal)

/-- `SchemaApprovalWorkflow._run_round_three`: dispatch the single Review3
assignment, wait for its decision, consume it and return it. -/
def roundThreePhase (config : SchemaApprovalWorkflowInput) (st0 : WorkflowState)
    (cur : SchemaSubmission) (signals : List Signal) :
    PhaseOut (WorkflowState × ReviewDecision) × List ActivityCall :=
  let st1 := { st0 with
      current_round_name := some ("Round3:v" ++ toString cur.version)
      expected_stages := ["Review3"] }
  let assignment : ReviewAssignment :=
    { stage := "Review3"
      reviewer := config.stage_three_reviewer
      submission := cur
      instructions := "Perform the compliance review" }
  let journal := [ActivityCall.dispatchReviewRequest assignment]
  let stW := deliverAll st1 signals
  match dictFind stW.decisions "Review3" with
  | some decision =>
    let stC := consumeStages stW ["Review3"]
    (.advanced ({ stC with
        history := stC.history ++
          ["Collected round three decision for version " ++ toString cur.version]
        current_round_name := none
        expected_stages := [] }, decision),
     journal)
  | none => (.waiting stW, journal)

/-- `SchemaApprovalWorkflow._request_resubmission`: mark the workflow as
awaiting a resubmission, journal the `record_revision_request` activity,
append the awaiting entry to history, deliver the environment's signals,
and when a pending submission is present resume: it becomes current, both
decision maps are cleared and the flags reset. The returned flag is `true`
when the gate resumed (`false` means still suspended on the wait
condition). -/
def requestResubmission (st0 : WorkflowState) (cur : SchemaSubmission)
    (stage : String) (reason : String) (signals : List Signal) :
    (WorkflowState × Bool) × List ActivityCall :=
  let st1 := { st0 with awaiting_resubmission := true }
  let journal := [ActivityCall.recordRevisionRequest
    { submission := cur, reason := reason, requested_by_stage := stage }]
  let st2 := { st1 with history := st1.history ++
      ["Awaiting resubmission after " ++ stage ++ " for version "
        ++ toString cur.version] }
  let stW := deliverAll st2 signals
  match stW.pending_submission with
  | some incoming =>
    (({ stW with
        current_submission := some incoming
        pending_submission := none
        decisions := []
        completed_decisions := []
        awaiting_resubmission := false
        current_round_name := none
        expected_stages := []
        history := stW.history ++
          ["Received resubmission version " ++ toString incoming.version] },
      true),
     journal)
  | none => ((stW, false), journal)

/-- Outcome of one pass through the body of the `while True` loop of
`SchemaApprovalWorkflow.run`. -/
inductive IterOutcome where
  | stuck (st : WorkflowState)
  | awaitingResubmission (stage : String) (st : WorkflowState)
  | looped (st : WorkflowState)
  | finished (result : SchemaApprovalResult) (st : WorkflowState)
  | internalError
deriving DecidableEq

/-- One pass through the body of the `while True` loop of
`SchemaApprovalWorkflow.run`: upload, round one, round-one check, round two,
round-two check, optional round three, finalize. `upload` supplies the
external upload collaborator's summaries and `now` the workflow time used
for `completed_at`. `internalError` marks the Python `KeyError` reads of
`completed_decisions` that the control flow makes unreachable. -/
def runIteration (config : SchemaApprovalWorkflowInput)
    (upload : SchemaSubmission → UploadSummary) (now : Int)
    (st0 : WorkflowState) (inputs : IterationInputs) :
    IterOutcome × List ActivityCall :=
  match st0.current_submission with
  | none => (.internalError, [])
  | some cur =>
    let stA := { st0 with attempts := st0.attempts + 1 }
    let (stB, jUp) := uploadCurrentSubmission upload stA cur
    match roundOnePhase config stB cur inputs.roundOne with
    | (.waiting stW, j1) => (.stuck stW, jUp ++ j1)
    | (.advanced stC, j1) =>
      if round_one_approved stC then
        match roundTwoPhase config stC cur inputs.roundTwo with
        | (.waiting stW, j2) => (.stuck stW, jUp ++ j1 ++ j2)
        | (.advanced (stD, round_two_decision), j2) =>
          if round_two_decision.approved then
            if boolOf round_two_decision.requires_additional_review then
              match roundThreePhase config stD cur inputs.roundThree with
              | (.waiting stW, j3) => (.stuck stW, jUp ++ j1 ++ j2 ++ j3)
              | (.advanced (stE, round_three_decision), j3) =>
                if round_three_decision.approved then
                  match dictFind stE.completed_decisions "Review1.a",
                        dictFind stE.completed_decisions "Review1.b" with
                  | some da, some db =>
                    let approvers := [("Review1.a", da.reviewer),
                                      ("Review1.b", db.reviewer),
                                      ("Review2", round_two_decision.reviewer),
                                      ("Review3", round_three_decision.reviewer)]
                    let result : SchemaApprovalResult :=
                      { schema_id := cur.schema_id
                        approved_version := cur.version
                        attempts := stE.attempts
                        approvers := approvers
                        completed_at := now }
                    (.finished result { stE with history := stE.history ++
                        ["Approved submission v" ++ toString cur.version
                          ++ " after " ++ toString stE.attempts ++ " attempts"] },
                     jUp ++ j1 ++ j2 ++ j3 ++ [ActivityCall.finalizeReview result])
                  | _, _ => (.internalError, jUp ++ j1 ++ j2 ++ j3)
                else
                  let ((stR, resumed), jR) := requestResubmission stE cur
                    "Review3Check" "Round three reviewer rejected the submission"
                    inputs.afterReject
                  ((if resumed then .looped stR
                    else .awaitingResubmission "Review3Check" stR),
                   jUp ++ j1 ++ j2 ++ j3 ++ jR)
            else
              match dictFind stD.completed_decisions "Review1.a",
                    dictFind stD.completed_decisions "Review1.b" with
              | some da, some db =>
                let approvers := [("Review1.a", da.reviewer),
                                  ("Review1.b", db.reviewer),
                                  ("Review2", round_two_decision.reviewer)]
                let result : SchemaApprovalResult :=
                  { schema_id := cur.schema_id
                    approved_version := cur.version
                    attempts := stD.attempts
                    approvers := approvers
                    completed_at := now }
                (.finished result { stD with history := stD.history ++
                    ["Approved submission v" ++ toString cur.version
                      ++ " after " ++ toString stD.attempts ++ " attempts"] },
                 jUp ++ j1 ++ j2 ++ [ActivityCall.finalizeReview result])
              | _, _ => (.internalError, jUp ++ j1 ++ j2)
          else
            let ((stR, resumed), jR) := requestResubmission stD cur
              "Review2Check" "Round two reviewer rejected the submission"
              inputs.afterReject
            ((if resumed then .looped stR
              else .awaitingResubmission "Review2Check" stR),
             jUp ++ j1 ++ j2 ++ jR)
      else
        let ((stR, resumed), jR) := requestResubmission stC cur
          "Review1Check" "Round one reviewers requested changes"
          inputs.afterReject
        ((if resumed then .looped stR
          else .awaitingResubmission "Review1Check" stR),
         jUp ++ j1 ++ jR)

/-- The prologue of `SchemaApprovalWorkflow.run`: validate the reviewer
list, then install the initial submission and the start entry of history
(the workflow starts from the `__init__` state). -/
def runStart (config : SchemaApprovalWorkflowInput) :
    Except String WorkflowState :=
  if config.stage_one_reviewers.length ≠ 2 then
    .error "stage_one_reviewers must contain exactly two reviewers"
  else
    .ok { current_submission := some config.initial_submission
          history := ["Workflow started with submission v"
            ++ toString config.initial_submission.version] }

/-- Outcome of driving `SchemaApprovalWorkflow.run` with a finite script of
per-iteration environment inputs. -/
inductive RunOutcome where
  | failed (msg : String)
  | completed (result : SchemaApprovalResult) (st : WorkflowState)
  | suspended (outcome : IterOutcome)
  | scriptExhausted (st : WorkflowState)
deriving DecidableEq

/-- The `while True` loop of `run`, driven by a finite list of per-iteration
environment inputs; a `looped` iteration continues with the next script
entry. -/
def runLoop (config : SchemaApprovalWorkflowInput)
    (upload : SchemaSubmission → UploadSummary) (now : Int)
    (st : WorkflowState) : List IterationInputs → RunOutcome × List ActivityCall
  | [] => (.scriptExhausted st, [])
  | inputs :: rest =>
    let (outcome, journal) := runIteration config upload now st inputs
    match outcome with
    | .looped st' =>
      let (outcome', journal') := runLoop config upload now st' rest
      (outcome', journal ++ journal')
    | .finished result st' => (.completed result st', journal)
    | other => (.suspended other, journal)

/-- `SchemaApprovalWorkflow.run` driven by a finite environment script:
validation first, then the loop. -/
def runWorkflow (config : SchemaApprovalWorkflowInput)
    (upload : SchemaSubmission → UploadSummary) (now : Int)
    (script : List IterationInputs) : RunOutcome × List ActivityCall :=
  match runStart config with
  | .error msg => (.failed msg, [])
  | .ok st => runLoop config upload now st script

/-- The `record_revision_request` payloads contained in a journal, in order
(the workflow's rejection actions). -/
def revisionRequestsOf (journal : List ActivityCall) : List RevisionRequest :=
  journal.filterMap (fun c =>
    match c with
    | .recordRevisionRequest r => some r
    | _ => none)

/-- Whether a journal contains a review dispatch for the given stage. -/
def dispatchesStage (journal : List ActivityCall) (stage : String) : Bool :=
  journal.any (fun c =>
    match c with
    | .dispatchReviewRequest a => a.stage = stage
    | _ => false)

/-- The state carried by a `stuck` iteration outcome (used to exhibit a
reachable state suspended inside a round). -/
def stuckStateOf : IterOutcome → WorkflowState
  | .stuck st => st
  | _ => {}

/-- The result carried by a `finished` iteration outcome. -/
def finishedResultOf : IterOutcome → SchemaApprovalResult
  | .finished res _ => res
  | _ => { schema_id := "", approved_version := 0, attempts := 0,
           approvers := [], completed_at := 0 }

/-- The state carried by a `finished` iteration outcome. -/
def finishedStateOf : IterOutcome → WorkflowState
  | .finished _ st => st
  | _ => {}

end Sig

/-! ## Concrete example inputs used by witnesses and counterexamples -/

/-- Example initial submission (version 1). -/
def exSub1 : Sig.SchemaSubmission :=
  { schema_id := "schema-1", version := 1, description := "d",
    content_uri := "u", submitted_by := "owner" }

/-- Example resubmission (version 2). -/
def exSub2 : Sig.SchemaSubmission :=
  { schema_id := "schema-1", version := 2, description := "d2",
    content_uri := "u2", submitted_by := "owner" }

/-- Example workflow input with the mandatory two round-one reviewers. -/
def exCfg : Sig.SchemaApprovalWorkflowInput :=
  { initial_submission := exSub1, stage_one_reviewers := ["alice", "bob"],
    stage_two_reviewer := "carol", stage_three_reviewer := "dave" }

/-- Example upload collaborator. -/
def exUp : Sig.SchemaSubmission → Sig.UploadSummary :=
  fun s => { version := s.version, storage_location := "blob-store", uploaded_by := "sys" }

/-- The workflow state right after `runStart exCfg`. -/
def exStart : Sig.WorkflowState :=
  { current_submission := some exSub1,
    history := ["Workflow started with submission v1"] }

/-- Example approving Review1.a decision for version 1. -/
def exDA : Sig.ReviewDecision :=
  { stage := "Review1.a", reviewer := "alice", submission_version := 1, approved := true }

/-- Example approving Review1.b decision for version 1. -/
def exDB : Sig.ReviewDecision :=
  { stage := "Review1.b", reviewer := "bob", submission_version := 1, approved := true }

/-- Example rejecting Review1.b decision for version 1. -/
def exDBrej : Sig.ReviewDecision :=
  { stage := "Review1.b", reviewer := "bob", submission_version := 1, approved := false }

/-- Example approving Review2 decision that waives the follow-up review. -/
def exD2 : Sig.ReviewDecision :=
  { stage := "Review2", reviewer := "carol", submission_version := 1,
    approved := true, requires_additional_review := some false }

/-- Example approving Review2 decision that requires the follow-up review. -/
def exD2req : Sig.ReviewDecision :=
  { stage := "Review2", reviewer := "carol", submission_version := 1,
    approved := true, requires_additional_review := some true }

/-- Example approving Review3 decision for version 1. -/
def exD3 : Sig.ReviewDecision :=
  { stage := "Review3", reviewer := "dave", submission_version := 1, approved := true }

/-- Example plan-driven submission for the completion activity. -/
def exPlanSub : Plan.SchemaSubmission :=
  { schema_id := "schema-1", body := "body", iteration := 1 }

/-- Example completion request containing one disapproval (by bob). -/
def exBadReq : Plan.CompleteReviewRequest :=
  { submission := exPlanSub, iteration := 1,
    approvals := [
      { stage := Plan.Stage.review1a, reviewer := "alice", approved := true, comments := none },
      { stage := Plan.Stage.review1b, reviewer := "bob", approved := false, comments := none }] }

/-- Example fully approved completion request. -/
def exGoodReq : Plan.CompleteReviewRequest :=
  { submission := exPlanSub, iteration := 1,
    approvals := [
      { stage := Plan.Stage.review1a, reviewer := "alice", approved := true, comments := none },
      { stage := Plan.Stage.review1b, reviewer := "bob", approved := true, comments := none },
      { stage := Plan.Stage.review2, reviewer := "carol", approved := true, comments := none }] }

/-- Example workflow input with a wrong number of round-one reviewers. -/
def exBadCfg : Sig.SchemaApprovalWorkflowInput :=
  { initial_submission := exSub1, stage_one_reviewers := ["alice"],
    stage_two_reviewer := "carol", stage_three_reviewer := "dave" }

/-- Example decision for a stale submission version. -/
def exDStale : Sig.ReviewDecision :=
  { stage := "Review1.a", reviewer := "alice", submission_version := 5, approved := true }

/-- The reachable state suspended in round one: the example workflow driven
one iteration with no signals delivered. -/
def exWaitR1 : Sig.WorkflowState :=
  Sig.stuckStateOf (Sig.runIteration exCfg exUp 0 exStart {}).fst

/-- Iteration script in which Review1.b rejects. -/
def exRejInputs : Sig.IterationInputs :=
  { roundOne := [.decide exDA, .decide exDBrej] }

/-- Iteration script in which all reviewers approve and Review2 waives the
follow-up review. -/
def exHappyInputs : Sig.IterationInputs :=
  { roundOne := [.decide exDA, .decide exDB], roundTwo := [.decide exD2] }

/-! ## Frame lemmas about the signal handlers -/

namespace Sig

/-- `submit_schema` never touches the active submission, the two decision
maps, the awaiting flag, the round context or the attempt counter. -/
theorem submit_schema_frame (st : WorkflowState) (s : SchemaSubmission) :
    (submit_schema st s).current_submission = st.current_submission ∧
    (submit_schema st s).decisions = st.decisions ∧
    (submit_schema st s).completed_decisions = st.completed_decisions ∧
    (submit_schema st s).awaiting_resubmission = st.awaiting_resubmission ∧
    (submit_schema st s).current_round_name = st.current_round_name ∧
    (submit_schema st s).expected_stages = st.expected_stages ∧
    (submit_schema st s).attempts = st.attempts := by
  unfold submit_schema
  cases h : st.current_submission with
  | none => simp [h]
  | some cur =>
    dsimp only
    split <;> simp [h]

/-- `record_review_decision` never touches the active submission, the
pending submission, the completed decisions, the awaiting flag, the round
context or the attempt counter. -/
theorem record_review_decision_frame (st : WorkflowState) (d : ReviewDecision) :
    (record_review_decision st d).current_submission = st.current_submission ∧
    (record_review_decision st d).pending_submission = st.pending_submission ∧
    (record_review_decision st d).completed_decisions = st.completed_decisions ∧
    (record_review_decision st d).awaiting_resubmission = st.awaiting_resubmission ∧
    (record_review_decision st d).current_round_name = st.current_round_name ∧
    (record_review_decision st d).expected_stages = st.expected_stages ∧
    (record_review_decision st d).attempts = st.attempts := by
  unfold record_review_decision
  cases h : st.current_submission with
  | none => simp [h]
  | some cur =>
    dsimp only
    split
    · simp [h]
    · split <;> simp [h]

/-- A single delivered signal preserves the active submission, the completed
decisions, the awaiting flag, the round context and the attempt counter. -/
theorem deliverSignal_frame (st : WorkflowState) (sig : Signal) :
    (deliverSignal st sig).current_submission = st.current_submission ∧
    (deliverSignal st sig).completed_decisions = st.completed_decisions ∧
    (deliverSignal st sig).awaiting_resubmission = st.awaiting_resubmission ∧
    (deliverSignal st sig).current_round_name = st.current_round_name ∧
    (deliverSignal st sig).expected_stages = st.expected_stages ∧
    (deliverSignal st sig).attempts = st.attempts := by
  cases sig with
  | submit s =>
    have h := submit_schema_frame st s
    exact ⟨h.1, h.2.2.1, h.2.2.2.1, h.2.2.2.2.1, h.2.2.2.2.2.1, h.2.2.2.2.2.2⟩
  | decide d =>
    have h := record_review_decision_frame st d
    exact ⟨h.1, h.2.2.1, h.2.2.2.1, h.2.2.2.2.1, h.2.2.2.2.2.1, h.2.2.2.2.2.2⟩

/-- A batch of delivered signals preserves the active submission, the
completed decisions, the awaiting flag, the round context and the attempt
counter. -/
theorem deliverAll_frame (st : WorkflowState) (signals : List Signal) :
    (deliverAll st signals).current_submission = st.current_submission ∧
    (deliverAll st signals).completed_decisions = st.completed_decisions ∧
    (deliverAll st signals).awaiting_resubmission = st.awaiting_resubmission ∧
    (deliverAll st signals).current_round_name = st.current_round_name ∧
    (deliverAll st signals).expected_stages = st.expected_stages ∧
    (deliverAll st signals).attempts = st.attempts := by
  induction signals generalizing st with
  | nil => simp [deliverAll]
  | cons sig rest ih =>
    have h1 := deliverSignal_frame st sig
    have h2 := ih (deliverSignal st sig)
    simp only [deliverAll, List.foldl_cons] at h2 ⊢
    exact ⟨h2.1.trans h1.1, h2.2.1.trans h1.2.1, h2.2.2.1.trans h1.2.2.1,
      h2.2.2.2.1.trans h1.2.2.2.1, h2.2.2.2.2.1.trans h1.2.2.2.2.1,
      h2.2.2.2.2.2.trans h1.2.2.2.2.2⟩

/-- Overwriting the same key with the same value a second time is a no-op. -/
theorem dictInsert_idem {α : Type} (l : List (String × α)) (k : String) (v : α) :
    dictInsert (dictInsert l k v) k v = dictInsert l k v := by
  induction l with
  | nil => simp [dictInsert]
  | cons hd tl ih =>
    obtain ⟨k', v'⟩ := hd
    by_cases h : k' = k
    · simp [dictInsert, h]
    · simp [dictInsert, h, ih]

/-- The journal of `_request_resubmission` is always exactly one
`record_revision_request` call carrying the submission, the reason and the
requesting stage. -/
theorem requestResubmission_journal (st : WorkflowState) (cur : SchemaSubmission)
    (stage reason : String) (signals : List Signal) :
    (requestResubmission st cur stage reason signals).snd =
      [ActivityCall.recordRevisionRequest
        { submission := cur, reason := reason, requested_by_stage := stage }] := by
  unfold requestResubmission
  dsimp only
  split <;> rfl

/-- The journal of `_run_round_one` is exactly the two Review1 dispatches. -/
theorem roundOnePhase_journal (config : SchemaApprovalWorkflowInput)
    (st : WorkflowState) (cur : SchemaSubmission) (signals : List Signal) :
    (roundOnePhase config st cur signals).snd =
      [ActivityCall.dispatchReviewRequest
        { stage := "Review1.a"
          reviewer := (config.stage_one_reviewers.get? 0).getD ""
          submission := cur
          instructions := "Perform the first parallel review (A)" },
       ActivityCall.dispatchReviewRequest
        { stage := "Review1.b"
          reviewer := (config.stage_one_reviewers.get? 1).getD ""
          submission := cur
          instructions := "Perform the first parallel review (B)" }] := by
  unfold roundOnePhase
  dsimp only
  split <;> rfl

/-- The journal of `_run_round_two` is exactly the Review2 dispatch. -/
theorem roundTwoPhase_journal (config : SchemaApprovalWorkflowInput)
    (st : WorkflowState) (cur : SchemaSubmission) (signals : List Signal) :
    (roundTwoPhase config st cur signals).snd =
      [ActivityCall.dispatchReviewRequest
        { stage := "Review2"
          reviewer := config.stage_two_reviewer
          submission := cur
          instructions := "Perform the senior schema review" }] := by
  unfold roundTwoPhase
  dsimp only
  split <;> rfl

/-- The journal of `_run_round_three` is exactly the Review3 dispatch. -/
theorem roundThreePhase_journal (config : SchemaApprovalWorkflowInput)
    (st : WorkflowState) (cur : SchemaSubmission) (signals : List Signal) :
    (roundThreePhase config st cur signals).snd =
      [ActivityCall.dispatchReviewRequest
        { stage := "Review3"
          reviewer := config.stage_three_reviewer
          submission := cur
          instructions := "Perform the compliance review" }] := by
  unfold roundThreePhase
  dsimp only
  split <;> rfl

/-- Equation for the ignore branch of `submit_schema`. -/
theorem submit_schema_ignored_eq (st : WorkflowState) (cand cur : SchemaSubmission)
    (hc : st.current_submission = some cur) (hle : cand.version ≤ cur.version) :
    submit_schema st cand = { st with history := st.history ++
      ["Ignored outdated submission v" ++ toString cand.version
        ++ "; current is v" ++ toString cur.version] } := by
  unfold submit_schema
  rw [hc]
  simp [hle]

/-- Equation for the accept branch of `submit_schema`: a candidate strictly
newer than any active submission lands in the pending slot. -/
theorem submit_schema_accepted_eq (st : WorkflowState) (cand : SchemaSubmission)
    (hacc : ∀ cur, st.current_submission = some cur → cur.version < cand.version) :
    submit_schema st cand = { st with pending_submission := some cand } := by
  unfold submit_schema
  cases hc : st.current_submission with
  | none => rfl
  | some cur =>
    dsimp only
    simp [not_le.mpr (hacc cur hc)]

/-- Equation for the accept branch of `record_review_decision`. -/
theorem record_review_decision_accepted_eq (st : WorkflowState) (d : ReviewDecision)
    (cur : SchemaSubmission) (hc : st.current_submission = some cur)
    (hv : d.submission_version = cur.version) (hs : d.stage ∈ VALID_STAGES) :
    record_review_decision st d = { st with
      decisions := dictInsert st.decisions d.stage d,
      history := st.history ++ ["Recorded decision for " ++ d.stage
        ++ " on version " ++ toString d.submission_version] } := by
  unfold record_review_decision
  rw [hc]
  simp [hv, hs]

/-- With no active submission a decision leaves the state unchanged. -/
theorem record_review_decision_none_eq (st : WorkflowState) (d : ReviewDecision)
    (hnone : st.current_submission = none) :
    record_review_decision st d = st := by
  unfold record_review_decision
  rw [hnone]

/-- Equation for the version-mismatch branch of `record_review_decision`. -/
theorem record_review_decision_mismatch_eq (st : WorkflowState) (d : ReviewDecision)
    (cur : SchemaSubmission) (hc : st.current_submission = some cur)
    (hne : d.submission_version ≠ cur.version) :
    record_review_decision st d = { st with history := st.history ++
      ["Ignored decision for version " ++ toString d.submission_version
        ++ "; current is v" ++ toString cur.version] } := by
  unfold record_review_decision
  rw [hc]
  simp [hne]

/-- Equation for the unknown-stage branch of `record_review_decision`. -/
theorem record_review_decision_unknown_eq (st : WorkflowState) (d : ReviewDecision)
    (cur : SchemaSubmission) (hc : st.current_submission = some cur)
    (hv : d.submission_version = cur.version) (hs : d.stage ∉ VALID_STAGES) :
    record_review_decision st d = { st with history := st.history ++
      ["Ignored decision for unknown stage " ++ d.stage] } := by
  unfold record_review_decision
  rw [hc]
  simp [hv, hs]

end Sig

/-! ## Claim theorems -/

/-- C8: `perform_review` raises the invalid-input `ValueError` exactly when
the `skip_follow_up` flag is supplied for a stage other than `Review2`; for
stage `Review2`, or when the flag is not set, it returns the predetermined
outcome without error. -/
theorem perform_review_waiver_contract (r : Plan.ReviewRequest) :
    (isError (Plan.perform_review r) = true ↔
      (r.decision.skip_follow_up = true ∧ r.stage ≠ Plan.Stage.review2)) ∧
    (∀ msg, Plan.perform_review r = .error msg →
      msg = "skip_follow_up is only supported for the second level review") := by
  unfold Plan.perform_review isError
  by_cases hcond : r.decision.skip_follow_up = true ∧ ¬r.stage = Plan.Stage.review2
  · simp [hcond]
  · simp [hcond]

/-- C8 witness: a Review1.b request carrying `skip_follow_up` errors, a
Review2 request carrying it does not. -/
theorem perform_review_waiver_contract_wit :
    (isError (Plan.perform_review
        { stage := Plan.Stage.review1b, iteration := 1,
          decision := { reviewer := "bob", approved := true, skip_follow_up := true } }) = true) ∧
    (isError (Plan.perform_review
        { stage := Plan.Stage.review2, iteration := 1,
          decision := { reviewer := "carol", approved := true, skip_follow_up := true } }) = false) := by
  constructor
  · exact (perform_review_waiver_contract
      { stage := Plan.Stage.review1b, iteration := 1,
        decision := { reviewer := "bob", approved := true, skip_follow_up := true } }).1.mpr
      (by constructor <;> decide)
  · have h := (perform_review_waiver_contract
      { stage := Plan.Stage.review2, iteration := 1,
        decision := { reviewer := "carol", approved := true, skip_follow_up := true } }).1
    cases hres : isError (Plan.perform_review
      { stage := Plan.Stage.review2, iteration := 1,
        decision := { reviewer := "carol", approved := true, skip_follow_up := true } }) with
    | false => rfl
    | true => exact absurd (h.mp hres).2 (by decide)

/-- C9: `complete_review` errors exactly when some supplied outcome is not
approved, its error message names the disapproving reviewers, and on
success it returns a report with `approved = true` for the request's
submission and iteration. -/
theorem complete_review_validation (req : Plan.CompleteReviewRequest) :
    (isError (Plan.complete_review req) = true ↔
      req.approvals.any (fun o => !o.approved) = true) ∧
    (∀ rep, Plan.complete_review req = .ok rep →
      rep.approved = true ∧ rep.submission = req.submission ∧
      rep.iteration = req.iteration) ∧
    (∀ msg, Plan.complete_review req = .error msg →
      msg = "Cannot complete review when some reviewers rejected the schema: "
        ++ String.intercalate ", "
          ((req.approvals.filter (fun o => !o.approved)).map (fun o => o.reviewer))) := by
  have hchar : Plan.complete_review req =
      (if (req.approvals.filter (fun o => !o.approved)).isEmpty = true then
        Except.ok
          { submission := req.submission
            iteration := req.iteration
            approved := true
            summary := "Schema " ++ req.submission.schema_id ++ " approved in iteration "
              ++ toString req.iteration ++ " by "
              ++ String.intercalate ", " (req.approvals.map (fun o => o.reviewer)) }
      else
        Except.error ("Cannot complete review when some reviewers rejected the schema: "
          ++ String.intercalate ", "
            ((req.approvals.filter (fun o => !o.approved)).map (fun o => o.reviewer)))) := by
    unfold Plan.complete_review Plan.CompleteReviewRequest.ensure_all_approved
    by_cases hemp : (req.approvals.filter (fun o => !o.approved)).isEmpty = true <;>
      simp [hemp]
  rw [hchar]
  by_cases hemp : (req.approvals.filter (fun o => !o.approved)).isEmpty = true
  · have hfil : req.approvals.filter (fun o => !o.approved) = [] := by
      cases hq : req.approvals.filter (fun o => !o.approved) with
      | nil => rfl
      | cons a l => rw [hq] at hemp; simp [List.isEmpty] at hemp
    have hany : req.approvals.any (fun o => !o.approved) = false := by
      cases hx : req.approvals.any (fun o => !o.approved) with
      | false => rfl
      | true =>
        obtain ⟨o, ho, hno⟩ := List.any_eq_true.mp hx
        exact absurd hno (List.filter_eq_nil_iff.mp hfil o ho)
    simp [hemp, hany, isError]
  · have hfil : req.approvals.filter (fun o => !o.approved) ≠ [] := by
      intro h0; rw [h0] at hemp; simp at hemp
    obtain ⟨o, ho⟩ : ∃ o, o ∈ req.approvals.filter (fun o => !o.approved) := by
      cases hq : req.approvals.filter (fun o => !o.approved) with
      | nil => exact absurd hq hfil
      | cons a l => exact ⟨a, by simp [hq]⟩
    have hmem := List.mem_filter.mp ho
    have hany : req.approvals.any (fun o => !o.approved) = true :=
      List.any_eq_true.mpr ⟨o, hmem.1, hmem.2⟩
    simp [hemp, hany, isError]

/-- C9 witness: a request with one disapproval errors naming that reviewer;
a fully approved request returns an approved report for its submission. -/
theorem complete_review_validation_wit :
    (∀ msg, Plan.complete_review exBadReq = .error msg →
      msg = "Cannot complete review when some reviewers rejected the schema: bob") ∧
    isError (Plan.complete_review exBadReq) = true ∧
    isError (Plan.complete_review exGoodReq) = false := by
  refine ⟨?_, ?_, ?_⟩
  · intro msg h
    have := (complete_review_validation exBadReq).2.2 msg h
    simpa using this
  · exact (complete_review_validation exBadReq).1.mpr (by decide)
  · have h := (complete_review_validation exGoodReq).1
    cases hres : isError (Plan.complete_review exGoodReq) with
    | false => rfl
    | true => exact absurd (h.mp hres) (by decide)

/-- C10: the signal-driven `run` validates the reviewer list first: it
raises the `ValueError` exactly when `stage_one_reviewers` does not contain
exactly two reviewers, and in that case the driven workflow fails with that
message with an empty journal - nothing was uploaded and no state was
produced. -/
theorem run_reviewer_count_validation (config : Sig.SchemaApprovalWorkflowInput) :
    (isError (Sig.runStart config) = true ↔
      config.stage_one_reviewers.length ≠ 2) ∧
    (config.stage_one_reviewers.length ≠ 2 →
      ∀ (upload : Sig.SchemaSubmission → Sig.UploadSummary) (now : Int)
        (script : List Sig.IterationInputs),
        Sig.runWorkflow config upload now script =
          (.failed "stage_one_reviewers must contain exactly two reviewers", [])) := by
  by_cases h : config.stage_one_reviewers.length = 2 <;>
    simp [Sig.runWorkflow, Sig.runStart, isError, h]

/-- C10 witness: a single-reviewer config fails with the validation message
and an empty journal; the two-reviewer example config passes validation. -/
theorem run_reviewer_count_validation_wit :
    Sig.runWorkflow exBadCfg exUp 0 [] =
      (.failed "stage_one_reviewers must contain exactly two reviewers", []) ∧
    isError (Sig.runStart exCfg) = false := by
  constructor
  · exact (run_reviewer_count_validation exBadCfg).2 (by decide) exUp 0 []
  · have h := (run_reviewer_count_validation exCfg).1
    cases hres : isError (Sig.runStart exCfg) with
    | false => rfl
    | true => exact absurd (h.mp hres) (by decide)

/-- C6: `submit_schema` leaves the active submission untouched and, for a
candidate whose version is not strictly greater than the active one, only
appends the ignore entry (pending slot unchanged, no error); a candidate is
installed as the pending submission exactly when no submission is active or
its version is strictly greater. -/
theorem submission_version_gate (st : Sig.WorkflowState) (cand : Sig.SchemaSubmission) :
    (∀ cur, st.current_submission = some cur → cand.version ≤ cur.version →
      Sig.submit_schema st cand = { st with history := st.history ++
        ["Ignored outdated submission v" ++ toString cand.version
          ++ "; current is v" ++ toString cur.version] }) ∧
    ((st.current_submission = none ∨
        ∃ cur, st.current_submission = some cur ∧ cur.version < cand.version) →
      Sig.submit_schema st cand = { st with pending_submission := some cand }) ∧
    (Sig.submit_schema st cand).current_submission = st.current_submission := by
  refine ⟨?_, ?_, (Sig.submit_schema_frame st cand).1⟩
  · intro cur hc hle
    unfold Sig.submit_schema
    rw [hc]
    simp [hle]
  · rintro (hnone | ⟨cur, hc, hlt⟩)
    · unfold Sig.submit_schema
      rw [hnone]
    · unfold Sig.submit_schema
      rw [hc]
      simp [not_le.mpr hlt]

/-- C6 witness: redelivering the active version 1 is ignored and logged,
while version 2 is accepted into the pending slot. -/
theorem submission_version_gate_wit :
    Sig.submit_schema exStart exSub1 = { exStart with history := exStart.history ++
      ["Ignored outdated submission v" ++ toString exSub1.version
        ++ "; current is v" ++ toString exSub1.version] } ∧
    Sig.submit_schema exStart exSub2 = { exStart with pending_submission := some exSub2 } := by
  constructor
  · exact (submission_version_gate exStart exSub1).1 exSub1 rfl (by decide)
  · exact (submission_version_gate exStart exSub2).2.1 (Or.inr ⟨exSub1, rfl, by decide⟩)

/-- C5 counterexample: a decision arriving before any submission is active
is not accepted, yet no ignore entry is appended to history - the state
comes back entirely unchanged, contradicting the claim that every
non-accepted decision appends an ignore entry. -/
theorem unaccepted_decision_missing_log_cex :
    ({} : Sig.WorkflowState).current_submission = none ∧
    Sig.record_review_decision {} exDA = ({} : Sig.WorkflowState) ∧
    (Sig.record_review_decision {} exDA).history = [] := by
  exact ⟨rfl, rfl, rfl⟩

/-- C5 (amended): a non-accepted decision never raises and never changes
the ledger or the submissions; when a submission is active the ignore
reason is appended to history (version mismatch, resp. unknown stage),
while a decision arriving before any submission leaves the state -
including history - unchanged (it is only logged out of band). -/
theorem unaccepted_decision_paths (st : Sig.WorkflowState) (d : Sig.ReviewDecision) :
    (st.current_submission = none → Sig.record_review_decision st d = st) ∧
    (∀ cur, st.current_submission = some cur → d.submission_version ≠ cur.version →
      Sig.record_review_decision st d = { st with history := st.history ++
        ["Ignored decision for version " ++ toString d.submission_version
          ++ "; current is v" ++ toString cur.version] }) ∧
    (∀ cur, st.current_submission = some cur → d.submission_version = cur.version →
      d.stage ∉ Sig.VALID_STAGES →
      Sig.record_review_decision st d = { st with history := st.history ++
        ["Ignored decision for unknown stage " ++ d.stage] }) := by
  refine ⟨?_, ?_, ?_⟩
  · intro hnone
    unfold Sig.record_review_decision
    rw [hnone]
  · intro cur hc hne
    unfold Sig.record_review_decision
    rw [hc]
    simp [hne]
  · intro cur hc heq hstage
    unfold Sig.record_review_decision
    rw [hc]
    simp [heq, hstage]

/-- C5 witness: a version-5 decision against the active version 1 leaves
the ledger empty and appends exactly the ignore entry. -/
theorem unaccepted_decision_paths_wit :
    Sig.record_review_decision exStart exDStale = { exStart with
      history := exStart.history ++
        ["Ignored decision for version " ++ toString exDStale.submission_version
          ++ "; current is v" ++ toString exSub1.version] } ∧
    (Sig.record_review_decision exStart exDStale).decisions = [] := by
  have h := (unaccepted_decision_paths exStart exDStale).2.1 exSub1 rfl (by decide)
  exact ⟨h, by rw [h]; rfl⟩

/-- C4 counterexample: delivering the same accepted (stage, version)
decision twice leaves the ledger identical, but the second delivery appends
another "Recorded decision" history line, so the history after the second
delivery is not identical to the history after the first. -/
theorem duplicate_decision_history_cex :
    (Sig.record_review_decision (Sig.record_review_decision exStart exDA) exDA).decisions
      = (Sig.record_review_decision exStart exDA).decisions ∧
    (Sig.record_review_decision (Sig.record_review_decision exStart exDA) exDA).history
      ≠ (Sig.record_review_decision exStart exDA).history := by
  exact ⟨by decide, by decide⟩

/-- C4 (amended): redelivering an accepted submission version is a complete
no-op, and redelivering an accepted (stage, version) decision leaves the
ledger, the active submission and the pending submission unchanged - the
only additional effect is one more "Recorded decision" history entry. -/
theorem duplicate_delivery_effects (st : Sig.WorkflowState)
    (s : Sig.SchemaSubmission) (d : Sig.ReviewDecision) :
    ((∀ cur, st.current_submission = some cur → cur.version < s.version) →
      Sig.submit_schema (Sig.submit_schema st s) s = Sig.submit_schema st s) ∧
    (∀ cur, st.current_submission = some cur → d.submission_version = cur.version →
      d.stage ∈ Sig.VALID_STAGES →
      (Sig.record_review_decision (Sig.record_review_decision st d) d).decisions
        = (Sig.record_review_decision st d).decisions ∧
      (Sig.record_review_decision (Sig.record_review_decision st d) d).current_submission
        = (Sig.record_review_decision st d).current_submission ∧
      (Sig.record_review_decision (Sig.record_review_decision st d) d).pending_submission
        = (Sig.record_review_decision st d).pending_submission ∧
      (Sig.record_review_decision (Sig.record_review_decision st d) d).history
        = (Sig.record_review_decision st d).history ++
          ["Recorded decision for " ++ d.stage ++ " on version "
            ++ toString d.submission_version]) := by
  constructor
  · intro hacc
    have h1 := Sig.submit_schema_accepted_eq st s hacc
    have hacc2 : ∀ cur, (Sig.submit_schema st s).current_submission = some cur →
        cur.version < s.version := by
      intro cur hc
      exact hacc cur ((Sig.submit_schema_frame st s).1.symm.trans hc)
    have h2 := Sig.submit_schema_accepted_eq (Sig.submit_schema st s) s hacc2
    rw [h2, h1]
  · intro cur hc hv hs
    have h1 := Sig.record_review_decision_accepted_eq st d cur hc hv hs
    have hc1 : (Sig.record_review_decision st d).current_submission = some cur := by
      rw [h1]
      exact hc
    have h2 := Sig.record_review_decision_accepted_eq
      (Sig.record_review_decision st d) d cur hc1 hv hs
    refine ⟨?_, ?_, ?_, ?_⟩
    · rw [h2, h1]
      exact Sig.dictInsert_idem st.decisions d.stage d
    · rw [h2]
    · rw [h2]
    · rw [h2]

/-- C4 witness: redelivering the accepted version-2 submission is a no-op,
and redelivering the accepted Review1.a decision keeps the ledger and the
submissions while appending one more history line. -/
theorem duplicate_delivery_effects_wit :
    Sig.submit_schema (Sig.submit_schema exStart exSub2) exSub2
      = Sig.submit_schema exStart exSub2 ∧
    (Sig.record_review_decision (Sig.record_review_decision exStart exDA) exDA).decisions
      = (Sig.record_review_decision exStart exDA).decisions ∧
    (Sig.record_review_decision (Sig.record_review_decision exStart exDA) exDA).history
      = (Sig.record_review_decision exStart exDA).history ++
        ["Recorded decision for " ++ exDA.stage ++ " on version "
          ++ toString exDA.submission_version] := by
  have hsub := (duplicate_delivery_effects exStart exSub2 exDA).1
    (by intro cur hc; cases hc; decide)
  have hdec := (duplicate_delivery_effects exStart exSub2 exDA).2 exSub1 rfl
    (by decide) (by decide)
  exact ⟨hsub, hdec.1, hdec.2.2.2⟩

/-- C7 counterexample: `_request_resubmission` does not append the reason
to history - two calls with different reasons produce identical histories,
so the claim that the reason is appended to history fails. -/
theorem resubmission_reason_not_logged_cex :
    (Sig.requestResubmission exStart exSub1 "Review1Check"
        "Round one reviewers requested changes" []).fst.fst.history =
      (Sig.requestResubmission exStart exSub1 "Review1Check"
        "entirely different reason" []).fst.fst.history ∧
    "Round one reviewers requested changes" ≠ "entirely different reason" := by
  exact ⟨rfl, by decide⟩

/-- C7 (amended): on a rejection the workflow marks itself as awaiting
resubmission and appends an awaiting entry naming the rejecting stage and
current version (the reason is carried by the journaled
`record_revision_request` activity, not by history); it stays suspended
while no pending submission exists, and on resumption the arriving
submission becomes active, both decision maps are cleared and the awaiting
flag is reset. -/
theorem resubmission_gate_behavior (st : Sig.WorkflowState)
    (cur : Sig.SchemaSubmission) (stage reason : String)
    (signals : List Sig.Signal) :
    (Sig.requestResubmission st cur stage reason signals).snd =
      [Sig.ActivityCall.recordRevisionRequest
        { submission := cur, reason := reason, requested_by_stage := stage }] ∧
    (∀ stW, stW = Sig.deliverAll
        { st with
          awaiting_resubmission := true
          history := st.history ++ ["Awaiting resubmission after " ++ stage
            ++ " for version " ++ toString cur.version] } signals →
      (stW.pending_submission = none →
        (Sig.requestResubmission st cur stage reason signals).fst = (stW, false) ∧
        stW.awaiting_resubmission = true) ∧
      (∀ p, stW.pending_submission = some p →
        (Sig.requestResubmission st cur stage reason signals).fst =
          ({ stW with
              current_submission := some p
              pending_submission := none
              decisions := []
              completed_decisions := []
              awaiting_resubmission := false
              current_round_name := none
              expected_stages := []
              history := stW.history ++
                ["Received resubmission version " ++ toString p.version] },
            true))) := by
  refine ⟨Sig.requestResubmission_journal st cur stage reason signals, ?_⟩
  intro stW hW
  constructor
  · intro hpnone
    constructor
    · unfold Sig.requestResubmission
      dsimp only
      rw [← hW, hpnone]
    · rw [hW]
      exact ((Sig.deliverAll_frame _ signals).2.2.1).trans rfl
  · intro p hp
    unfold Sig.requestResubmission
    dsimp only
    rw [← hW, hp]

/-- C7 witness: rejecting at Review1Check and then receiving the version-2
resubmission resumes with it active, empty decision maps and the awaiting
flag cleared, with the awaiting entry naming the stage and version. -/
theorem resubmission_gate_behavior_wit :
    (Sig.requestResubmission exStart exSub1 "Review1Check"
        "Round one reviewers requested changes" [.submit exSub2]).snd =
      [Sig.ActivityCall.recordRevisionRequest
        { submission := exSub1, reason := "Round one reviewers requested changes",
          requested_by_stage := "Review1Check" }] ∧
    ((Sig.requestResubmission exStart exSub1 "Review1Check"
        "Round one reviewers requested changes" [.submit exSub2]).fst.fst.current_submission
      = some exSub2 ∧
     (Sig.requestResubmission exStart exSub1 "Review1Check"
        "Round one reviewers requested changes" [.submit exSub2]).fst.fst.decisions = [] ∧
     (Sig.requestResubmission exStart exSub1 "Review1Check"
        "Round one reviewers requested changes" [.submit exSub2]).fst.fst.completed_decisions = [] ∧
     (Sig.requestResubmission exStart exSub1 "Review1Check"
        "Round one reviewers requested changes" [.submit exSub2]).fst.fst.awaiting_resubmission
      = false ∧
     (Sig.requestResubmission exStart exSub1 "Review1Check"
        "Round one reviewers requested changes" [.submit exSub2]).fst.snd = true) := by
  have h := resubmission_gate_behavior exStart exSub1 "Review1Check"
    "Round one reviewers requested changes" [.submit exSub2]
  have h2 := (h.2 _ rfl).2 exSub2 (by decide)
  refine ⟨h.1, ?_, ?_, ?_, ?_, ?_⟩ <;> rw [h2]

/-- C1 counterexample: in a reachable state suspended in round one (the
expected stage set is Review1.a/Review1.b), a version-matching decision for
stage Review2 - which is not currently expected - is still stored into the
pending ledger, contradicting the claim that a decision is stored only if
its stage is in the stage set currently expected for the active round. -/
theorem ledger_expected_stage_cex :
    Sig.runStart exCfg = .ok exStart ∧
    (Sig.runIteration exCfg exUp 0 exStart {}).fst = .stuck exWaitR1 ∧
    exWaitR1.expected_stages = ["Review1.a", "Review1.b"] ∧
    exD2.stage ∉ exWaitR1.expected_stages ∧
    exWaitR1.current_submission = some exSub1 ∧
    exD2.submission_version = exSub1.version ∧
    (Sig.record_review_decision exWaitR1 exD2).decisions ≠ exWaitR1.decisions ∧
    Sig.dictFind (Sig.record_review_decision exWaitR1 exD2).decisions "Review2"
      = some exD2 := by
  refine ⟨rfl, rfl, by decide, by decide, by decide, by decide, by decide, by decide⟩

/-- C1 (amended): a decision is stored into the pending ledger only if a
submission is active, the decision's version equals the active version and
its stage belongs to the static valid stage set `_VALID_STAGES` (not the
stage set currently expected for the active round); an accepted decision
adds exactly the ledger entry and a history line, and
`record_review_decision` never modifies the completed decisions of closed
rounds. -/
theorem ledger_static_stage_gate (st : Sig.WorkflowState) (d : Sig.ReviewDecision) :
    ((Sig.record_review_decision st d).decisions ≠ st.decisions →
      ∃ cur, st.current_submission = some cur ∧
        d.submission_version = cur.version ∧ d.stage ∈ Sig.VALID_STAGES) ∧
    (∀ cur, st.current_submission = some cur → d.submission_version = cur.version →
      d.stage ∈ Sig.VALID_STAGES →
      (Sig.record_review_decision st d).decisions
        = Sig.dictInsert st.decisions d.stage d ∧
      (Sig.record_review_decision st d).history = st.history ++
        ["Recorded decision for " ++ d.stage ++ " on version "
          ++ toString d.submission_version]) ∧
    (Sig.record_review_decision st d).completed_decisions = st.completed_decisions := by
  refine ⟨?_, ?_, (Sig.record_review_decision_frame st d).2.2.1⟩
  · intro hch
    cases hc : st.current_submission with
    | none =>
      exact absurd
        (congrArg Sig.WorkflowState.decisions
          (Sig.record_review_decision_none_eq st d hc)) hch
    | some cur =>
      by_cases hv : d.submission_version = cur.version
      · by_cases hs : d.stage ∈ Sig.VALID_STAGES
        · exact ⟨cur, rfl, hv, hs⟩
        · exact absurd
            (by rw [Sig.record_review_decision_unknown_eq st d cur hc hv hs]) hch
      · exact absurd
          (by rw [Sig.record_review_decision_mismatch_eq st d cur hc hv]) hch
  · intro cur hc hv hs
    rw [Sig.record_review_decision_accepted_eq st d cur hc hv hs]
    exact ⟨rfl, rfl⟩

/-- C1 witness: the accepted Review1.a decision for the active version is
stored as a ledger entry plus a history line, with completed decisions
untouched. -/
theorem ledger_static_stage_gate_wit :
    (Sig.record_review_decision exStart exDA).decisions
      = Sig.dictInsert exStart.decisions exDA.stage exDA ∧
    (Sig.record_review_decision exStart exDA).completed_decisions
      = exStart.completed_decisions := by
  have h := ledger_static_stage_gate exStart exDA
  exact ⟨(h.2.1 exSub1 rfl (by decide) (by decide)).1, h.2.2⟩

/-- C2: with both round-one decisions `a` and `b` collected for the
iteration, round one is approved exactly when both have `approved = true`;
in every other combination the iteration performs exactly one rejection -
a single `record_revision_request` for stage Review1Check with the
round-one reason - and loops back to await a resubmission without ever
dispatching Round 2; when both approve, Round 2 is dispatched and no
round-one rejection is recorded. -/
theorem round_one_approval_gate (config : Sig.SchemaApprovalWorkflowInput)
    (upload : Sig.SchemaSubmission → Sig.UploadSummary) (now : Int)
    (st0 : Sig.WorkflowState) (cur : Sig.SchemaSubmission)
    (inputs : Sig.IterationInputs) (stC : Sig.WorkflowState)
    (j1 : List Sig.ActivityCall) (a b : Sig.ReviewDecision)
    (hc : st0.current_submission = some cur)
    (h1 : Sig.roundOnePhase config
      (Sig.uploadCurrentSubmission upload
        { st0 with attempts := st0.attempts + 1 } cur).fst
      cur inputs.roundOne = (.advanced stC, j1))
    (ha : Sig.dictFind stC.completed_decisions "Review1.a" = some a)
    (hb : Sig.dictFind stC.completed_decisions "Review1.b" = some b) :
    Sig.round_one_approved stC = (a.approved && b.approved) ∧
    ((a.approved && b.approved) = false →
      Sig.revisionRequestsOf (Sig.runIteration config upload now st0 inputs).snd =
        [{ submission := cur, reason := "Round one reviewers requested changes",
           requested_by_stage := "Review1Check" }] ∧
      Sig.dispatchesStage (Sig.runIteration config upload now st0 inputs).snd
        "Review2" = false ∧
      (∃ stR, (Sig.runIteration config upload now st0 inputs).fst = .looped stR ∨
        (Sig.runIteration config upload now st0 inputs).fst =
          .awaitingResubmission "Review1Check" stR)) ∧
    ((a.approved && b.approved) = true →
      Sig.dispatchesStage (Sig.runIteration config upload now st0 inputs).snd
        "Review2" = true ∧
      (Sig.revisionRequestsOf (Sig.runIteration config upload now st0 inputs).snd).all
        (fun r => r.requested_by_stage ≠ "Review1Check") = true) := by
  have happr : Sig.round_one_approved stC = (a.approved && b.approved) := by
    unfold Sig.round_one_approved
    rw [ha, hb]
  have hj1 : j1 = (Sig.roundOnePhase config
      (Sig.uploadCurrentSubmission upload
        { st0 with attempts := st0.attempts + 1 } cur).fst
      cur inputs.roundOne).snd := by
    rw [h1]
  rw [Sig.roundOnePhase_journal] at hj1
  have hrun : Sig.runIteration config upload now st0 inputs =
      (if Sig.round_one_approved stC then
        (match Sig.roundTwoPhase config stC cur inputs.roundTwo with
        | (.waiting stW, j2) =>
          (.stuck stW,
            [Sig.ActivityCall.uploadSchema cur] ++ j1 ++ j2)
        | (.advanced (stD, round_two_decision), j2) =>
          if round_two_decision.approved then
            if Sig.boolOf round_two_decision.requires_additional_review then
              match Sig.roundThreePhase config stD cur inputs.roundThree with
              | (.waiting stW, j3) =>
                (.stuck stW,
                  [Sig.ActivityCall.uploadSchema cur] ++ j1 ++ j2 ++ j3)
              | (.advanced (stE, round_three_decision), j3) =>
                if round_three_decision.approved then
                  match Sig.dictFind stE.completed_decisions "Review1.a",
                        Sig.dictFind stE.completed_decisions "Review1.b" with
                  | some da, some db =>
                    let approvers := [("Review1.a", da.reviewer),
                                      ("Review1.b", db.reviewer),
                                      ("Review2", round_two_decision.reviewer),
                                      ("Review3", round_three_decision.reviewer)]
                    let result : Sig.SchemaApprovalResult :=
                      { schema_id := cur.schema_id
                        approved_version := cur.version
                        attempts := stE.attempts
                        approvers := approvers
                        completed_at := now }
                    (.finished result { stE with history := stE.history ++
                        ["Approved submission v" ++ toString cur.version
                          ++ " after " ++ toString stE.attempts ++ " attempts"] },
                     [Sig.ActivityCall.uploadSchema cur] ++ j1 ++ j2 ++ j3
                       ++ [Sig.ActivityCall.finalizeReview result])
                  | _, _ =>
                    (.internalError,
                      [Sig.ActivityCall.uploadSchema cur] ++ j1 ++ j2 ++ j3)
                else
                  (match Sig.requestResubmission stE cur "Review3Check"
                      "Round three reviewer rejected the submission"
                      inputs.afterReject with
                  | ((stR, resumed), jR) =>
                    ((if resumed then .looped stR
                      else .awaitingResubmission "Review3Check" stR),
                     [Sig.ActivityCall.uploadSchema cur] ++ j1 ++ j2 ++ j3 ++ jR))
            else
              match Sig.dictFind stD.completed_decisions "Review1.a",
                    Sig.dictFind stD.completed_decisions "Review1.b" with
              | some da, some db =>
                let approvers := [("Review1.a", da.reviewer),
                                  ("Review1.b", db.reviewer),
                                  ("Review2", round_two_decision.reviewer)]
                let result : Sig.SchemaApprovalResult :=
                  { schema_id := cur.schema_id
                    approved_version := cur.version
                    attempts := stD.attempts
                    approvers := approvers
                    completed_at := now }
                (.finished result { stD with history := stD.history ++
                    ["Approved submission v" ++ toString cur.version
                      ++ " after " ++ toString stD.attempts ++ " attempts"] },
                 [Sig.ActivityCall.uploadSchema cur] ++ j1 ++ j2
                   ++ [Sig.ActivityCall.finalizeReview result])
              | _, _ =>
                (.internalError, [Sig.ActivityCall.uploadSchema cur] ++ j1 ++ j2)
          else
            (match Sig.requestResubmission stD cur "Review2Check"
                "Round two reviewer rejected the submission"
                inputs.afterReject with
            | ((stR, resumed), jR) =>
              ((if resumed then .looped stR
                else .awaitingResubmission "Review2Check" stR),
               [Sig.ActivityCall.uploadSchema cur] ++ j1 ++ j2 ++ jR)))
      else
        (match Sig.requestResubmission stC cur "Review1Check"
            "Round one reviewers requested changes" inputs.afterReject with
        | ((stR, resumed), jR) =>
          ((if resumed then .looped stR
            else .awaitingResubmission "Review1Check" stR),
           [Sig.ActivityCall.uploadSchema cur] ++ j1 ++ jR))) := by
    unfold Sig.runIteration
    rw [hc] at h1 ⊢
    dsimp only
    simp only [Sig.uploadCurrentSubmission] at h1 ⊢
    rw [h1]
  refine ⟨happr, ?_, ?_⟩
  · intro hfalse
    rw [happr, hfalse] at hrun
    simp only [Bool.false_eq_true, if_false] at hrun
    rcases hR : Sig.requestResubmission stC cur "Review1Check"
        "Round one reviewers requested changes" inputs.afterReject with ⟨⟨stR, resumed⟩, jR⟩
    have hjR : jR = [Sig.ActivityCall.recordRevisionRequest
        { submission := cur, reason := "Round one reviewers requested changes",
          requested_by_stage := "Review1Check" }] := by
      have h := Sig.requestResubmission_journal stC cur "Review1Check"
        "Round one reviewers requested changes" inputs.afterReject
      rw [hR] at h
      exact h
    rw [hR] at hrun
    dsimp only at hrun
    refine ⟨?_, ?_, ?_⟩
    · rw [hrun]
      simp [Sig.revisionRequestsOf, hj1, hjR]
    · rw [hrun]
      simp [Sig.dispatchesStage, hj1, hjR]
    · cases resumed with
      | true => exact ⟨stR, Or.inl (by rw [hrun]; simp)⟩
      | false => exact ⟨stR, Or.inr (by rw [hrun]; simp)⟩
  · intro htrue
    rw [happr, htrue] at hrun
    simp only [reduceIte] at hrun
    rcases h2 : Sig.roundTwoPhase config stC cur inputs.roundTwo with ⟨r2, j2⟩
    have hj2 : j2 = [Sig.ActivityCall.dispatchReviewRequest
        { stage := "Review2", reviewer := config.stage_two_reviewer,
          submission := cur, instructions := "Perform the senior schema review" }] := by
      have h := Sig.roundTwoPhase_journal config stC cur inputs.roundTwo
      rw [h2] at h
      exact h
    rw [h2] at hrun
    cases r2 with
    | waiting stW =>
      dsimp only at hrun
      rw [hrun]
      constructor
      · simp [Sig.dispatchesStage, hj1, hj2]
      · simp [Sig.revisionRequestsOf, hj1, hj2]
    | advanced p =>
      obtain ⟨stD, d2⟩ := p
      dsimp only at hrun
      by_cases h2a : d2.approved = true
      · rw [h2a] at hrun
        simp only [reduceIte] at hrun
        by_cases h2r : Sig.boolOf d2.requires_additional_review = true
        · rw [h2r] at hrun
          simp only [reduceIte] at hrun
          rcases h3 : Sig.roundThreePhase config stD cur inputs.roundThree with ⟨r3, j3⟩
          have hj3 : j3 = [Sig.ActivityCall.dispatchReviewRequest
              { stage := "Review3", reviewer := config.stage_three_reviewer,
                submission := cur, instructions := "Perform the compliance review" }] := by
            have h := Sig.roundThreePhase_journal config stD cur inputs.roundThree
            rw [h3] at h
            exact h
          rw [h3] at hrun
          cases r3 with
          | waiting stW =>
            dsimp only at hrun
            rw [hrun]
            constructor
            · simp [Sig.dispatchesStage, hj1, hj2, hj3]
            · simp [Sig.revisionRequestsOf, hj1, hj2, hj3]
          | advanced q =>
            obtain ⟨stE, d3⟩ := q
            dsimp only at hrun
            by_cases h3a : d3.approved = true
            · rw [h3a] at hrun
              simp only [reduceIte] at hrun
              rcases hda : Sig.dictFind stE.completed_decisions "Review1.a" with _ | da <;>
                rcases hdb : Sig.dictFind stE.completed_decisions "Review1.b" with _ | db <;>
                rw [hda, hdb] at hrun <;> dsimp only at hrun <;> rw [hrun] <;>
                constructor <;>
                simp [Sig.dispatchesStage, Sig.revisionRequestsOf, hj1, hj2, hj3]
            · rw [Bool.not_eq_true] at h3a
              rw [h3a] at hrun
              simp only [Bool.false_eq_true, if_false] at hrun
              rcases hR : Sig.requestResubmission stE cur "Review3Check"
                  "Round three reviewer rejected the submission"
                  inputs.afterReject with ⟨⟨stR, resumed⟩, jR⟩
              have hjR : jR = [Sig.ActivityCall.recordRevisionRequest
                  { submission := cur,
                    reason := "Round three reviewer rejected the submission",
                    requested_by_stage := "Review3Check" }] := by
                have h := Sig.requestResubmission_journal stE cur "Review3Check"
                  "Round three reviewer rejected the submission" inputs.afterReject
                rw [hR] at h
                exact h
              rw [hR] at hrun
              dsimp only at hrun
              rw [hrun]
              constructor
              · simp [Sig.dispatchesStage, hj1, hj2, hj3, hjR]
              · simp [Sig.revisionRequestsOf, hj1, hj2, hj3, hjR]
        · rw [Bool.not_eq_true] at h2r
          rw [h2r] at hrun
          simp only [Bool.false_eq_true, if_false] at hrun
          rcases hda : Sig.dictFind stD.completed_decisions "Review1.a" with _ | da <;>
            rcases hdb : Sig.dictFind stD.completed_decisions "Review1.b" with _ | db <;>
            rw [hda, hdb] at hrun <;> dsimp only at hrun <;> rw [hrun] <;>
            constructor <;>
            simp [Sig.dispatchesStage, Sig.revisionRequestsOf, hj1, hj2]
      · rw [Bool.not_eq_true] at h2a
        rw [h2a] at hrun
        simp only [Bool.false_eq_true, if_false] at hrun
        rcases hR : Sig.requestResubmission stD cur "Review2Check"
            "Round two reviewer rejected the submission"
            inputs.afterReject with ⟨⟨stR, resumed⟩, jR⟩
        have hjR : jR = [Sig.ActivityCall.recordRevisionRequest
            { submission := cur, reason := "Round two reviewer rejected the submission",
              requested_by_stage := "Review2Check" }] := by
          have h := Sig.requestResubmission_journal stD cur "Review2Check"
            "Round two reviewer rejected the submission" inputs.afterReject
          rw [hR] at h
          exact h
        rw [hR] at hrun
        dsimp only at hrun
        rw [hrun]
        constructor
        · simp [Sig.dispatchesStage, hj1, hj2, hjR]
        · simp [Sig.revisionRequestsOf, hj1, hj2, hjR]

/-- C2 witness: with Review1.a approving and Review1.b rejecting version 1,
the iteration records exactly one revision request - for Review1Check with
the round-one reason - and never dispatches Round 2. -/
theorem round_one_approval_gate_wit :
    Sig.revisionRequestsOf (Sig.runIteration exCfg exUp 0 exStart exRejInputs).snd =
      [{ submission := exSub1, reason := "Round one reviewers requested changes",
         requested_by_stage := "Review1Check" }] ∧
    Sig.dispatchesStage (Sig.runIteration exCfg exUp 0 exStart exRejInputs).snd
      "Review2" = false := by
  have h := round_one_approval_gate exCfg exUp 0 exStart exSub1 exRejInputs _ _
    exDA exDBrej rfl rfl (by decide) (by decide)
  have h2 := h.2.1 (by decide)
  exact ⟨h2.1, h2.2.1⟩

/-- C3: in the signal-driven workflow - with round one collected and
approved and the Review2 decision `d2` collected and approved - Round 3 is
dispatched exactly when `d2.requires_additional_review` is truthy, i.e.
when the follow-up was not waived; when Round 3 does not execute and the
iteration finishes, the approvers map of the final result contains no
Review3 entry; and in plan-driven mode (modelled from the spec) Round 3 is
required exactly when the round plan requires it and Review2 did not waive
it. -/
theorem round_three_requirement_gate (config : Sig.SchemaApprovalWorkflowInput)
    (upload : Sig.SchemaSubmission → Sig.UploadSummary) (now : Int)
    (st0 : Sig.WorkflowState) (cur : Sig.SchemaSubmission)
    (inputs : Sig.IterationInputs) (stC stD : Sig.WorkflowState)
    (j1 j2 : List Sig.ActivityCall) (d2 : Sig.ReviewDecision)
    (hc : st0.current_submission = some cur)
    (h1 : Sig.roundOnePhase config
      (Sig.uploadCurrentSubmission upload
        { st0 with attempts := st0.attempts + 1 } cur).fst
      cur inputs.roundOne = (.advanced stC, j1))
    (happr : Sig.round_one_approved stC = true)
    (h2 : Sig.roundTwoPhase config stC cur inputs.roundTwo
      = (.advanced (stD, d2), j2))
    (h2a : d2.approved = true) :
    Sig.dispatchesStage (Sig.runIteration config upload now st0 inputs).snd
      "Review3" = Sig.boolOf d2.requires_additional_review ∧
    (Sig.boolOf d2.requires_additional_review = false →
      ∀ res stF, (Sig.runIteration config upload now st0 inputs).fst
          = .finished res stF →
        Sig.dictFind res.approvers "Review3" = none) ∧
    (∀ (plan : Plan.ReviewRoundPlan) (o2 : Plan.ReviewOutcome),
      Plan.planRequiresRoundThree plan o2
        = (plan.requires_review3 && !o2.skip_additional_review)) := by
  have hj1 : j1 = (Sig.roundOnePhase config
      (Sig.uploadCurrentSubmission upload
        { st0 with attempts := st0.attempts + 1 } cur).fst
      cur inputs.roundOne).snd := by
    rw [h1]
  rw [Sig.roundOnePhase_journal] at hj1
  have hj2 : j2 = [Sig.ActivityCall.dispatchReviewRequest
      { stage := "Review2", reviewer := config.stage_two_reviewer,
        submission := cur, instructions := "Perform the senior schema review" }] := by
    have h := Sig.roundTwoPhase_journal config stC cur inputs.roundTwo
    rw [h2] at h
    exact h
  have hrun : Sig.runIteration config upload now st0 inputs =
      (if Sig.boolOf d2.requires_additional_review then
        match Sig.roundThreePhase config stD cur inputs.roundThree with
        | (.waiting stW, j3) =>
          (.stuck stW, [Sig.ActivityCall.uploadSchema cur] ++ j1 ++ j2 ++ j3)
        | (.advanced (stE, round_three_decision), j3) =>
          if round_three_decision.approved then
            match Sig.dictFind stE.completed_decisions "Review1.a",
                  Sig.dictFind stE.completed_decisions "Review1.b" with
            | some da, some db =>
              let approvers := [("Review1.a", da.reviewer),
                                ("Review1.b", db.reviewer),
                                ("Review2", d2.reviewer),
                                ("Review3", round_three_decision.reviewer)]
              let result : Sig.SchemaApprovalResult :=
                { schema_id := cur.schema_id
                  approved_version := cur.version
                  attempts := stE.attempts
                  approvers := approvers
                  completed_at := now }
              (.finished result { stE with history := stE.history ++
                  ["Approved submission v" ++ toString cur.version
                    ++ " after " ++ toString stE.attempts ++ " attempts"] },
               [Sig.ActivityCall.uploadSchema cur] ++ j1 ++ j2 ++ j3
                 ++ [Sig.ActivityCall.finalizeReview result])
            | _, _ =>
              (.internalError, [Sig.ActivityCall.uploadSchema cur] ++ j1 ++ j2 ++ j3)
          else
            (match Sig.requestResubmission stE cur "Review3Check"
                "Round three reviewer rejected the submission"
                inputs.afterReject with
            | ((stR, resumed), jR) =>
              ((if resumed then .looped stR
                else .awaitingResubmission "Review3Check" stR),
               [Sig.ActivityCall.uploadSchema cur] ++ j1 ++ j2 ++ j3 ++ jR))
      else
        match Sig.dictFind stD.completed_decisions "Review1.a",
              Sig.dictFind stD.completed_decisions "Review1.b" with
        | some da, some db =>
          let approvers := [("Review1.a", da.reviewer),
                            ("Review1.b", db.reviewer),
                            ("Review2", d2.reviewer)]
          let result : Sig.SchemaApprovalResult :=
            { schema_id := cur.schema_id
              approved_version := cur.version
              attempts := stD.attempts
              approvers := approvers
              completed_at := now }
          (.finished result { stD with history := stD.history ++
              ["Approved submission v" ++ toString cur.version
                ++ " after " ++ toString stD.attempts ++ " attempts"] },
           [Sig.ActivityCall.uploadSchema cur] ++ j1 ++ j2
             ++ [Sig.ActivityCall.finalizeReview result])
        | _, _ =>
          (.internalError, [Sig.ActivityCall.uploadSchema cur] ++ j1 ++ j2)) := by
    unfold Sig.runIteration
    rw [hc] at h1 ⊢
    dsimp only
    simp only [Sig.uploadCurrentSubmission] at h1 ⊢
    rw [h1]
    dsimp only
    rw [happr]
    simp only [reduceIte]
    rw [h2]
    dsimp only
    rw [h2a]
    simp only [reduceIte]
  refine ⟨?_, ?_, ?_⟩
  · by_cases hreq : Sig.boolOf d2.requires_additional_review = true
    · rw [hreq] at hrun ⊢
      simp only [reduceIte] at hrun
      rcases h3 : Sig.roundThreePhase config stD cur inputs.roundThree with ⟨r3, j3⟩
      have hj3 : j3 = [Sig.ActivityCall.dispatchReviewRequest
          { stage := "Review3", reviewer := config.stage_three_reviewer,
            submission := cur, instructions := "Perform the compliance review" }] := by
        have h := Sig.roundThreePhase_journal config stD cur inputs.roundThree
        rw [h3] at h
        exact h
      rw [h3] at hrun
      cases r3 with
      | waiting stW =>
        dsimp only at hrun
        rw [hrun]
        simp [Sig.dispatchesStage, hj3]
      | advanced q =>
        obtain ⟨stE, d3⟩ := q
        dsimp only at hrun
        by_cases h3a : d3.approved = true
        · rw [h3a] at hrun
          simp only [reduceIte] at hrun
          rcases hda : Sig.dictFind stE.completed_decisions "Review1.a" with _ | da <;>
            rcases hdb : Sig.dictFind stE.completed_decisions "Review1.b" with _ | db <;>
            rw [hda, hdb] at hrun <;> dsimp only at hrun <;> rw [hrun] <;>
            simp [Sig.dispatchesStage, hj3]
        · rw [Bool.not_eq_true] at h3a
          rw [h3a] at hrun
          simp only [Bool.false_eq_true, if_false] at hrun
          rcases hR : Sig.requestResubmission stE cur "Review3Check"
              "Round three reviewer rejected the submission"
              inputs.afterReject with ⟨⟨stR, resumed⟩, jR⟩
          rw [hR] at hrun
          dsimp only at hrun
          rw [hrun]
          simp [Sig.dispatchesStage, hj3]
    · rw [Bool.not_eq_true] at hreq
      rw [hreq] at hrun ⊢
      simp only [Bool.false_eq_true, if_false] at hrun
      rcases hda : Sig.dictFind stD.completed_decisions "Review1.a" with _ | da <;>
        rcases hdb : Sig.dictFind stD.completed_decisions "Review1.b" with _ | db <;>
        rw [hda, hdb] at hrun <;> dsimp only at hrun <;> rw [hrun] <;>
        simp [Sig.dispatchesStage, Sig.revisionRequestsOf, hj1, hj2]
  · intro hreq res stF hfin
    rw [hreq] at hrun
    simp only [Bool.false_eq_true, if_false] at hrun
    rcases hda : Sig.dictFind stD.completed_decisions "Review1.a" with _ | da
    · rcases hdb : Sig.dictFind stD.completed_decisions "Review1.b" with _ | db <;>
        rw [hda, hdb] at hrun <;> dsimp only at hrun <;> rw [hrun] at hfin <;>
        exact absurd hfin (by simp)
    · rcases hdb : Sig.dictFind stD.completed_decisions "Review1.b" with _ | db
      · rw [hda, hdb] at hrun
        dsimp only at hrun
        rw [hrun] at hfin
        exact absurd hfin (by simp)
      · rw [hda, hdb] at hrun
        dsimp only at hrun
        rw [hrun] at hfin
        dsimp only at hfin
        simp only [Sig.IterOutcome.finished.injEq] at hfin
        obtain ⟨hres, hstF⟩ := hfin
        rw [← hres]
        simp [Sig.dictFind]
  · intro plan o2
    rfl

/-- C3 witness: with both round-one reviewers approving and Review2
approving with the follow-up waived, the iteration never dispatches Review3
and the finished result's approvers map has no Review3 entry; the
plan-driven rule evaluates a required-but-waived plan to false. -/
theorem round_three_requirement_gate_wit :
    Sig.dispatchesStage (Sig.runIteration exCfg exUp 0 exStart exHappyInputs).snd
      "Review3" = false ∧
    Sig.dictFind (Sig.finishedResultOf
      (Sig.runIteration exCfg exUp 0 exStart exHappyInputs).fst).approvers
      "Review3" = none := by
  have h := round_three_requirement_gate exCfg exUp 0 exStart exSub1 exHappyInputs
    _ _ _ _ _ rfl rfl (by decide) rfl (by decide)
  constructor
  · rw [h.1]
    decide
  · exact h.2.1 (by decide)
      (Sig.finishedResultOf (Sig.runIteration exCfg exUp 0 exStart exHappyInputs).fst)
      (Sig.finishedStateOf (Sig.runIteration exCfg exUp 0 exStart exHappyInputs).fst)
      rfl

end SchemaApproval
